import Mathlib

/-!
Shallow embedding of the bsub.io Go client library's job-lifecycle
orchestration core (`client.go`): the create → upload → submit sequence,
the polling loop `WaitForJob`, the result assembler `GetJobResult`, and
the end-to-end helpers `Process` / `ProcessFile`.

Remote calls are modelled by environments that supply each call's
response (transport outcome plus HTTP payload); each operation returns
its Go result together with the list of transport calls it performed.
Go's `(value, error)` return pairs become `GoResult`; a nil-pointer
dereference is the distinguished outcome `crash`; the unbounded polling
loop takes fuel, with `none` marking non-termination within the fuel.
-/

namespace Bsubio

/-- The eight job lifecycle statuses of the generated `JobStatus` enum
(exercised exhaustively by the repository's `TestJobStatus`). -/
inductive JobStatus
  | Created
  | Loaded
  | Pending
  | Claimed
  | Preparing
  | Processing
  | Finished
  | Failed
  deriving DecidableEq, Repr

/-- A job snapshot: the fields of the generated `Job` struct that the
orchestration core reads. Go pointer fields become `Option`. -/
structure Job where
  id : Option String
  jobType : Option String
  status : Option JobStatus
  uploadToken : Option String
  errorMessage : Option String
  dataSize : Option Nat
  deriving DecidableEq, Repr

/-- The `{data, success}` JSON wrapper body around a job payload:
its `Data *Job` field. -/
structure JobEnvelope where
  data : Option Job
  deriving DecidableEq, Repr

/-- Response of `CreateJobWithResponse`: HTTP status code and the
decoded 201 body when present (`JSON201 *struct{Data *Job}`). -/
structure CreateJobResponse where
  statusCode : Nat
  json201 : Option JobEnvelope
  deriving DecidableEq, Repr

/-- Response of `GetJobWithResponse`: HTTP status code and the decoded
200 body when present (`JSON200 *struct{Data *Job}`). -/
structure GetJobResponse where
  statusCode : Nat
  json200 : Option JobEnvelope
  deriving DecidableEq, Repr

/-- Response of `UploadJobDataWithBodyWithResponse`; the client only
inspects its status code. -/
structure UploadResponse where
  statusCode : Nat
  deriving DecidableEq, Repr

/-- Response of `SubmitJobWithResponse`; the client only inspects its
status code, the decoded body (which may carry a post-submit job
snapshot) is ignored. -/
structure SubmitResponse where
  statusCode : Nat
  json200 : Option JobEnvelope
  deriving DecidableEq, Repr

instance exceptDecEq {ε α : Type} [DecidableEq ε] [DecidableEq α] :
    DecidableEq (Except ε α)
  | .error e, .error f =>
    if h : e = f then .isTrue (congrArg Except.error h)
    else .isFalse (fun hc => h (Except.error.inj hc))
  | .error _, .ok _ => .isFalse (fun hc => Except.noConfusion hc)
  | .ok _, .error _ => .isFalse (fun hc => Except.noConfusion hc)
  | .ok x, .ok y =>
    if h : x = y then .isTrue (congrArg Except.ok h)
    else .isFalse (fun hc => h (Except.ok.inj hc))

/-- A raw `*http.Response` as returned by `GetJobOutput` / `GetJobLogs`:
status code plus the outcome of `io.ReadAll` on its body. -/
structure RawResponse where
  statusCode : Nat
  body : Except String (List Nat)
  deriving DecidableEq, Repr

/-- The errors `client.go` can return, one constructor per
`fmt.Errorf` site; `String` arguments carry the wrapped lower-level
error's message, `Nat` arguments the offending HTTP status code. -/
inductive ClientError
  | createJobTransport (msg : String)
  | createJobStatus (code : Nat)
  | unexpectedResponseFormat
  | noUploadToken
  | copyDataFailed (msg : String)
  | uploadTransport (msg : String)
  | uploadStatus (code : Nat)
  | submitTransport (msg : String)
  | submitStatus (code : Nat)
  | openFileFailed (msg : String)
  | getJobStatusTransport (msg : String)
  | getJobStatusCode (code : Nat)
  | ctxErr
  | getJobTransport (msg : String)
  | getJobStatusBad (code : Nat)
  | getOutputTransport (msg : String)
  | readOutputFailed (msg : String)
  | waitingFailed (e : ClientError)
  | jobFailedWithMessage (msg : String)
  | jobFailed
  deriving DecidableEq, Repr

/-- A Go `(value *T, error)` return, extended with `crash` for a
nil-pointer dereference and `diverge` for running out of polling fuel. -/
inductive GoResult (α : Type)
  | ret (val : Option α) (err : Option ClientError)
  | crash
  | diverge
  deriving DecidableEq, Repr

/-- One transport call against the generated API client, recorded with
the arguments the orchestration passes it. -/
inductive ApiCall
  | createJob (jobType : String)
  | uploadJobData (jobId : String) (token : String)
  | submitJob (jobId : String)
  | getJob (jobId : String)
  | getJobOutput (jobId : String)
  | getJobLogs (jobId : String)
  deriving DecidableEq, Repr

/-- Environment for `CreateAndSubmitJob`: the outcome of each of its
three transport calls (`Except.error` is a transport-level failure). -/
structure CreateEnv where
  createResp : Except String CreateJobResponse
  uploadResp : Except String UploadResponse
  submitResp : Except String SubmitResponse
  deriving Repr

/-- `CreateAndSubmitJob` from `client.go`: create the job, check for
HTTP 201 and a well-formed payload, guard the upload token, assemble the
multipart body (on a `bytes.Buffer` only `io.Copy` from the caller's
reader can fail, modelled by `data` being an `Except`), dereference
`*job.Id` unchecked, upload, submit, and return the creation-step job
snapshot. -/
def CreateAndSubmitJob (env : CreateEnv) (jobType : String)
    (data : Except String (List Nat)) : GoResult Job × List ApiCall :=
  match env.createResp with
  | .error e => (.ret none (some (.createJobTransport e)), [.createJob jobType])
  | .ok createResp =>
    if createResp.statusCode ≠ 201 then
      (.ret none (some (.createJobStatus createResp.statusCode)), [.createJob jobType])
    else
      match createResp.json201 with
      | none => (.ret none (some .unexpectedResponseFormat), [.createJob jobType])
      | some body201 =>
        match body201.data with
        | none => (.ret none (some .unexpectedResponseFormat), [.createJob jobType])
        | some job =>
          match job.uploadToken with
          | none => (.ret none (some .noUploadToken), [.createJob jobType])
          | some token =>
            match data with
            | .error e => (.ret none (some (.copyDataFailed e)), [.createJob jobType])
            | .ok _bytes =>
              match job.id with
              | none => (.crash, [.createJob jobType])
              | some jobId =>
                match env.uploadResp with
                | .error e =>
                  (.ret none (some (.uploadTransport e)),
                    [.createJob jobType, .uploadJobData jobId token])
                | .ok uploadResp =>
                  if uploadResp.statusCode ≠ 200 then
                    (.ret none (some (.uploadStatus uploadResp.statusCode)),
                      [.createJob jobType, .uploadJobData jobId token])
                  else
                    match env.submitResp with
                    | .error e =>
                      (.ret none (some (.submitTransport e)),
                        [.createJob jobType, .uploadJobData jobId token, .submitJob jobId])
                    | .ok submitResp =>
                      if submitResp.statusCode ≠ 200 then
                        (.ret none (some (.submitStatus submitResp.statusCode)),
                          [.createJob jobType, .uploadJobData jobId token, .submitJob jobId])
                      else
                        (.ret (some job) none,
                          [.createJob jobType, .uploadJobData jobId token, .submitJob jobId])

/-- `CreateAndSubmitJobFromFile` from `client.go`: open the file
(`openResult` is the outcome of `os.Open` plus reading the handle) and
delegate to `CreateAndSubmitJob`; on open failure return the wrapped
I/O error before any transport call. -/
def CreateAndSubmitJobFromFile (env : CreateEnv) (jobType : String)
    (openResult : Except String (List Nat)) : GoResult Job × List ApiCall :=
  match openResult with
  | .error e => (.ret none (some (.openFileFailed e)), [])
  | .ok bytes => CreateAndSubmitJob env jobType (.ok bytes)

/-- The terminal-status test from `WaitForJob`'s loop body:
`*job.Status == JobStatusFinished || *job.Status == JobStatusFailed`. -/
def statusIsTerminal : JobStatus → Bool
  | .Finished => true
  | .Failed => true
  | _ => false

/-- The full guard `job.Status != nil && (*job.Status == JobStatusFinished
|| *job.Status == JobStatusFailed)` from `WaitForJob`. -/
def jobTerminalCheck (job : Job) : Bool :=
  match job.status with
  | some s => statusIsTerminal s
  | none => false

/-- The guard `job.Status != nil && *job.Status == s` as written in
`GetJobResult` (with `s = Finished`) and `Process` / `ProcessFile`
(with `s = Failed`). -/
def jobStatusIs (job : Job) (s : JobStatus) : Bool :=
  match job.status with
  | some st => decide (st = s)
  | none => false

/-- A Go `context.Context` as `WaitForJob` observes it: whether the
non-blocking `ctx.Done()` check at the top of iteration `n` sees the
context already cancelled, and whether the cancellation branch of the
wait `select` fires during iteration `n`'s 2-second wait. -/
structure PollCtx where
  cancelledAtStart : Nat → Bool
  cancelDuringWait : Nat → Bool

/-- How one run of `WaitForJob` exited: the returned `(job, err)` pair
(`Except.ok` a job, `Except.error` otherwise), how many `GetJob`
fetches it performed, and how many full 2-second waits elapsed. -/
structure WaitExit where
  result : Except ClientError Job
  fetches : Nat
  waits : Nat
  deriving DecidableEq, Repr

/-- The body of `WaitForJob`'s `for` loop, iteration `n`, with `fetches`
completed fetches and `waits` completed wait intervals so far; `fetch n`
is the outcome of the `n`-th `GetJobWithResponse` call. Fuel bounds the
number of iterations; `none` means the loop was still running. -/
def waitForJobLoop (ctx : PollCtx) (fetch : Nat → Except String GetJobResponse) :
    Nat → Nat → Nat → Nat → Option WaitExit
  | 0, _, _, _ => none
  | fuel + 1, n, fetches, waits =>
    if ctx.cancelledAtStart n then
      some ⟨.error .ctxErr, fetches, waits⟩
    else
      match fetch n with
      | .error e => some ⟨.error (.getJobStatusTransport e), fetches + 1, waits⟩
      | .ok resp =>
        if resp.statusCode ≠ 200 then
          some ⟨.error (.getJobStatusCode resp.statusCode), fetches + 1, waits⟩
        else
          match resp.json200 with
          | none => some ⟨.error .unexpectedResponseFormat, fetches + 1, waits⟩
          | some body200 =>
            match body200.data with
            | none => some ⟨.error .unexpectedResponseFormat, fetches + 1, waits⟩
            | some job =>
              if jobTerminalCheck job then
                some ⟨.ok job, fetches + 1, waits⟩
              else if ctx.cancelDuringWait n then
                some ⟨.error .ctxErr, fetches + 1, waits⟩
              else
                waitForJobLoop ctx fetch fuel (n + 1) (fetches + 1) (waits + 1)

/-- `WaitForJob` from `client.go`: run the polling loop from its first
iteration. -/
def WaitForJob (ctx : PollCtx) (fetch : Nat → Except String GetJobResponse)
    (fuel : Nat) : Option WaitExit :=
  waitForJobLoop ctx fetch fuel 0 0 0

/-- Environment for `GetJobResult`: the outcomes of its `GetJob` fetch
and of the raw `GetJobOutput` / `GetJobLogs` calls. -/
structure ResultEnv where
  jobResp : Except String GetJobResponse
  outputResp : Except String RawResponse
  logsResp : Except String RawResponse
  deriving Repr

/-- The `JobResult` struct: final job snapshot, output bytes and logs
(Go's `Logs string` modelled as its bytes). -/
structure JobResult where
  job : Option Job
  output : List Nat
  logs : List Nat
  deriving DecidableEq, Repr

/-- The tail of `GetJobResult` from the `GetJobLogs` call on: any
failure (transport error, non-200 status, or body read error) returns
the result built so far without an error; a 200 with a readable body
fills in the logs. -/
def fetchLogsPhase (env : ResultEnv) (jobID : String) (result : JobResult)
    (calls : List ApiCall) : GoResult JobResult × List ApiCall :=
  let calls2 := calls ++ [.getJobLogs jobID]
  match env.logsResp with
  | .error _ => (.ret (some result) none, calls2)
  | .ok logsResp =>
    if logsResp.statusCode = 200 then
      match logsResp.body with
      | .error _ => (.ret (some result) none, calls2)
      | .ok bytes => (.ret (some { result with logs := bytes }) none, calls2)
    else
      (.ret (some result) none, calls2)

/-- `GetJobResult` from `client.go`: fetch the job (failing on
transport error, non-200, or malformed payload); when the status is
`Finished` fetch the output — failing the whole call on a transport
error or a body read error, but leaving the output empty on a non-200
status; then fetch the logs best-effort. -/
def GetJobResult (env : ResultEnv) (jobID : String) :
    GoResult JobResult × List ApiCall :=
  match env.jobResp with
  | .error e => (.ret none (some (.getJobTransport e)), [.getJob jobID])
  | .ok resp =>
    if resp.statusCode ≠ 200 then
      (.ret none (some (.getJobStatusBad resp.statusCode)), [.getJob jobID])
    else
      match resp.json200 with
      | none => (.ret none (some .unexpectedResponseFormat), [.getJob jobID])
      | some body200 =>
        match body200.data with
        | none => (.ret none (some .unexpectedResponseFormat), [.getJob jobID])
        | some job =>
          let result : JobResult := ⟨some job, [], []⟩
          if jobStatusIs job .Finished then
            match env.outputResp with
            | .error e =>
              (.ret none (some (.getOutputTransport e)), [.getJob jobID, .getJobOutput jobID])
            | .ok outputResp =>
              if outputResp.statusCode = 200 then
                match outputResp.body with
                | .error e =>
                  (.ret none (some (.readOutputFailed e)), [.getJob jobID, .getJobOutput jobID])
                | .ok bytes =>
                  fetchLogsPhase env jobID { result with output := bytes }
                    [.getJob jobID, .getJobOutput jobID]
              else
                fetchLogsPhase env jobID result [.getJob jobID, .getJobOutput jobID]
          else
            fetchLogsPhase env jobID result [.getJob jobID]

/-- The remote-failure guard in `Process` / `ProcessFile`:
`finishedJob.Status != nil && *finishedJob.Status == JobStatusFailed`. -/
def jobFailedCheck (job : Job) : Bool :=
  jobStatusIs job .Failed

/-- Environment for `Process` / `ProcessFile`: the create/upload/submit
responses, the polling context and fetch stream, and the result
assembler's responses. -/
structure ProcessEnv where
  createEnv : CreateEnv
  pollCtx : PollCtx
  fetch : Nat → Except String GetJobResponse
  resultEnv : ResultEnv

/-- `Process` from `client.go`: create-and-submit, wait for a terminal
status, and assemble the result; when the terminal status is `Failed`,
assemble a best-effort result (discarding its error) and pair it with a
`job failed` error that embeds the remote error message only when both
the assembled result and the message are present. -/
def Process (env : ProcessEnv) (jobType : String)
    (data : Except String (List Nat)) (fuel : Nat) :
    GoResult JobResult × List ApiCall :=
  match CreateAndSubmitJob env.createEnv jobType data with
  | (.crash, calls) => (.crash, calls)
  | (.diverge, calls) => (.diverge, calls)
  | (.ret jobVal jobErr, calls) =>
    match jobErr with
    | some e => (.ret none (some e), calls)
    | none =>
      match jobVal with
      | none => (.crash, calls)
      | some job =>
        match job.id with
        | none => (.crash, calls)
        | some jobId =>
          match WaitForJob env.pollCtx env.fetch fuel with
          | none => (.diverge, calls)
          | some exit =>
            let calls2 := calls ++ List.replicate exit.fetches (.getJob jobId)
            match exit.result with
            | .error e => (.ret none (some (.waitingFailed e)), calls2)
            | .ok finishedJob =>
              if jobFailedCheck finishedJob then
                match GetJobResult env.resultEnv jobId with
                | (.ret resultVal _, calls3) =>
                  match resultVal, finishedJob.errorMessage with
                  | some r, some msg =>
                    (.ret (some r) (some (.jobFailedWithMessage msg)), calls2 ++ calls3)
                  | _, _ => (.ret resultVal (some .jobFailed), calls2 ++ calls3)
                | (other, calls3) => (other, calls2 ++ calls3)
              else
                match GetJobResult env.resultEnv jobId with
                | (r, calls3) => (r, calls2 ++ calls3)

/-- `ProcessFile` from `client.go`: open the file and run the same
workflow (`CreateAndSubmitJobFromFile`, wait, assemble). -/
def ProcessFile (env : ProcessEnv) (jobType : String)
    (openResult : Except String (List Nat)) (fuel : Nat) :
    GoResult JobResult × List ApiCall :=
  match openResult with
  | .error e => (.ret none (some (.openFileFailed e)), [])
  | .ok bytes => Process env jobType (.ok bytes) fuel

/-- Observer: the call returned a non-nil value and a nil error. -/
def returnsOkResult (g : GoResult JobResult) : Bool :=
  match g with
  | .ret (some _) none => true
  | _ => false

/-- Observer: the output bytes of a returned non-nil `JobResult`. -/
def returnedOutput (g : GoResult JobResult) : Option (List Nat) :=
  match g with
  | .ret (some r) _ => some r.output
  | _ => none

/-- Observer: the job snapshot of a returned non-nil `JobResult`. -/
def returnedJob (g : GoResult JobResult) : Option (Option Job) :=
  match g with
  | .ret (some r) _ => some r.job
  | _ => none

/-- Test fixture: a job stuck in the intermediate `Pending` status. -/
def pendingJob : Job :=
  ⟨some "job-1", some "pandoc_md", some .Pending, some "tok", none, some 1024⟩

/-- Test fixture: a well-formed 200 `GetJob` response carrying `pendingJob`. -/
def pendingResp : GetJobResponse := ⟨200, some ⟨some pendingJob⟩⟩

/-- Test fixture: a job that reached the `Finished` terminal status. -/
def finishedJob0 : Job :=
  ⟨some "job-1", some "pandoc_md", some .Finished, none, none, some 1024⟩

/-- Test fixture: a well-formed 200 `GetJob` response carrying `finishedJob0`. -/
def finishedResp : GetJobResponse := ⟨200, some ⟨some finishedJob0⟩⟩

/-- Test fixture: a `Failed` job carrying a remote error message. -/
def failedJobMsg : Job :=
  ⟨some "job-1", some "pandoc_md", some .Failed, none, some "boom", some 1024⟩

/-- Test fixture: a well-formed 200 `GetJob` response carrying `failedJobMsg`. -/
def failedResp : GetJobResponse := ⟨200, some ⟨some failedJobMsg⟩⟩

/-- Test fixture: a job snapshot whose status field is absent. -/
def jobNoStatus : Job :=
  ⟨some "job-1", some "pandoc_md", none, none, none, none⟩

/-- Test fixture: a freshly created job with id, upload token and
status `Created`, as the create endpoint's contract promises. -/
def createdJob0 : Job :=
  ⟨some "job-1", some "pandoc_md", some .Created, some "tok", none, none⟩

/-- Test fixture: a context already cancelled when polling starts. -/
def ctxCancelAtStart : PollCtx := ⟨fun _ => true, fun _ => false⟩

/-- Test fixture: a context whose cancellation fires during every wait. -/
def ctxCancelInWait : PollCtx := ⟨fun _ => false, fun _ => true⟩

/-- Test fixture: a context that is never cancelled. -/
def ctxNever : PollCtx := ⟨fun _ => false, fun _ => false⟩

/-- Test fixture: create/upload/submit all succeed, the creation
payload being `createdJob0`; the ignored submit body carries a
post-submit `pendingJob` snapshot. -/
def createEnvGood : CreateEnv :=
  ⟨.ok ⟨201, some ⟨some createdJob0⟩⟩, .ok ⟨200⟩, .ok ⟨200, some ⟨some pendingJob⟩⟩⟩

/-- Test fixture: a successful creation whose payload lacks the upload
token. -/
def createEnvNoToken : CreateEnv :=
  ⟨.ok ⟨201, some ⟨some { createdJob0 with uploadToken := none }⟩⟩, .ok ⟨200⟩, .ok ⟨200, none⟩⟩

/-- Test fixture: a successful creation whose payload lacks the job id
but carries a token. -/
def createEnvNoId : CreateEnv :=
  ⟨.ok ⟨201, some ⟨some { createdJob0 with id := none }⟩⟩, .ok ⟨200⟩, .ok ⟨200, none⟩⟩

/-- Test fixture: the result assembler sees a `Finished` job, the
output fetch dies at the transport level, the logs fetch succeeds. -/
def resultEnvOutputDown : ResultEnv :=
  ⟨.ok finishedResp, .error "connection reset", .ok ⟨200, .ok [108]⟩⟩

/-- Test fixture: the result assembler sees a `Finished` job, output
fetch returns 200 with body byte `53`, logs fetch returns 404. -/
def resultEnvGood : ResultEnv :=
  ⟨.ok finishedResp, .ok ⟨200, .ok [53]⟩, .ok ⟨404, .ok []⟩⟩

/-- Test fixture: the result assembler sees a job with no status field;
the output transport would fail if it were (wrongly) consulted. -/
def resultEnvNoStatus : ResultEnv :=
  ⟨.ok ⟨200, some ⟨some jobNoStatus⟩⟩, .error "unused", .ok ⟨200, .ok [108]⟩⟩

/-- Test fixture: the result assembler sees the `Failed` job and fetches
its logs (byte `108`); no output fetch happens for a failed job. -/
def resultEnvFailed : ResultEnv :=
  ⟨.ok failedResp, .ok ⟨404, .ok []⟩, .ok ⟨200, .ok [108]⟩⟩

/-- Test fixture for the full workflow: creation succeeds, the first
poll sees the job `Failed` with a remote message, and the result
assembler's mandatory job fetch fails at the transport level. -/
def processEnvAssemblyDown : ProcessEnv :=
  ⟨⟨.ok ⟨201, some ⟨some createdJob0⟩⟩, .ok ⟨200⟩, .ok ⟨200, none⟩⟩,
   ctxNever, fun _ => .ok failedResp, ⟨.error "down", .error "down", .error "down"⟩⟩

/-- Test fixture for the full workflow: creation succeeds, the first
poll sees the job `Failed` with a remote message, and the result
assembler succeeds. -/
def processEnvFailedGood : ProcessEnv :=
  ⟨⟨.ok ⟨201, some ⟨some createdJob0⟩⟩, .ok ⟨200⟩, .ok ⟨200, none⟩⟩,
   ctxNever, fun _ => .ok failedResp, resultEnvFailed⟩

/-- Observer: the logs bytes of a returned non-nil `JobResult`. -/
def returnedLogs (g : GoResult JobResult) : Option (List Nat) :=
  match g with
  | .ret (some r) _ => some r.logs
  | _ => none

/-- The logs fetch failed: transport error, non-200 status code, or a
body read error. -/
def logsFetchFailed (env : ResultEnv) : Prop :=
  (∃ e, env.logsResp = .error e) ∨
  (∃ lresp, env.logsResp = .ok lresp ∧ lresp.statusCode ≠ 200) ∨
  (∃ lresp e, env.logsResp = .ok lresp ∧ lresp.body = .error e)

/-- The logs phase always returns a non-nil result with a nil error,
keeping the job snapshot and output it was handed and appending exactly
the `GetJobLogs` call to the trace. -/
theorem fetchLogsPhase_shape (env : ResultEnv) (jobID : String) (result : JobResult)
    (calls : List ApiCall) :
    ∃ r, fetchLogsPhase env jobID result calls =
        (.ret (some r) none, calls ++ [.getJobLogs jobID]) ∧
      r.job = result.job ∧ r.output = result.output ∧
      (logsFetchFailed env → r.logs = result.logs) := by
  unfold fetchLogsPhase
  rcases hl : env.logsResp with e | logsResp
  · exact ⟨result, rfl, rfl, rfl, fun _ => rfl⟩
  · dsimp only
    by_cases h : logsResp.statusCode = 200
    · rw [if_pos h]
      rcases hb : logsResp.body with e | bytes
      · exact ⟨result, rfl, rfl, rfl, fun _ => rfl⟩
      · refine ⟨{ result with logs := bytes }, rfl, rfl, rfl, fun hfail => ?_⟩
        rcases hfail with ⟨e, he⟩ | ⟨lresp, hle, hcode⟩ | ⟨lresp, e, hle, hbe⟩
        · rw [hl] at he
          exact Except.noConfusion he
        · rw [hl] at hle
          cases Except.ok.inj hle
          exact absurd h hcode
        · rw [hl] at hle
          cases Except.ok.inj hle
          rw [hb] at hbe
          exact Except.noConfusion hbe
    · rw [if_neg h]
      exact ⟨result, rfl, rfl, rfl, fun _ => rfl⟩

/-- Any job the polling loop returns as its success value passes the
terminal check. -/
theorem waitForJobLoop_ok_terminal (ctx : PollCtx)
    (fetch : Nat → Except String GetJobResponse) :
    ∀ (fuel n f w : Nat) (exit : WaitExit) (job : Job),
      waitForJobLoop ctx fetch fuel n f w = some exit →
      exit.result = .ok job → jobTerminalCheck job = true := by
  intro fuel
  induction fuel with
  | zero =>
    intro n f w exit job h _
    exact absurd h (by simp [waitForJobLoop])
  | succ fuel ih =>
    intro n f w exit job h hr
    rw [waitForJobLoop] at h
    by_cases hc : ctx.cancelledAtStart n
    · rw [if_pos hc, Option.some_inj] at h
      subst h
      exact Except.noConfusion hr
    · rw [if_neg hc] at h
      rcases hf : fetch n with e | resp
      · rw [hf] at h
        dsimp only at h
        rw [Option.some_inj] at h
        subst h
        exact Except.noConfusion hr
      · rw [hf] at h
        dsimp only at h
        by_cases hs : resp.statusCode ≠ 200
        · rw [if_pos hs, Option.some_inj] at h
          subst h
          exact Except.noConfusion hr
        · rw [if_neg hs] at h
          rcases hj : resp.json200 with _ | body
          · rw [hj] at h
            dsimp only at h
            rw [Option.some_inj] at h
            subst h
            exact Except.noConfusion hr
          · rw [hj] at h
            dsimp only at h
            rcases hd : body.data with _ | job'
            · rw [hd] at h
              dsimp only at h
              rw [Option.some_inj] at h
              subst h
              exact Except.noConfusion hr
            · rw [hd] at h
              dsimp only at h
              by_cases ht : jobTerminalCheck job' = true
              · rw [if_pos ht, Option.some_inj] at h
                subst h
                exact (Except.ok.inj hr) ▸ ht
              · rw [if_neg ht] at h
                by_cases hw : ctx.cancelDuringWait n
                · rw [if_pos hw, Option.some_inj] at h
                  subst h
                  exact Except.noConfusion hr
                · rw [if_neg hw] at h
                  exact ih (n + 1) (f + 1) (w + 1) exit job h hr

/-- When every fetch yields a well-formed 200 response with a
non-terminal job, the polling loop can only exit with the cancellation
error. -/
theorem waitForJobLoop_nonterminal_cancel (ctx : PollCtx)
    (fetch : Nat → Except String GetJobResponse)
    (hfetch : ∀ m, ∃ resp body job, fetch m = .ok resp ∧ resp.statusCode = 200 ∧
      resp.json200 = some body ∧ body.data = some job ∧ jobTerminalCheck job = false) :
    ∀ (fuel n f w : Nat) (exit : WaitExit),
      waitForJobLoop ctx fetch fuel n f w = some exit →
      exit.result = .error .ctxErr := by
  intro fuel
  induction fuel with
  | zero =>
    intro n f w exit h
    exact absurd h (by simp [waitForJobLoop])
  | succ fuel ih =>
    intro n f w exit h
    obtain ⟨resp, body, job, hf, hs, hj, hd, ht⟩ := hfetch n
    rw [waitForJobLoop] at h
    by_cases hc : ctx.cancelledAtStart n
    · rw [if_pos hc, Option.some_inj] at h
      subst h
      rfl
    · rw [if_neg hc, hf] at h
      dsimp only at h
      rw [if_neg (by simp [hs]), hj] at h
      dsimp only at h
      rw [hd] at h
      dsimp only at h
      rw [if_neg (by simp [ht])] at h
      by_cases hw : ctx.cancelDuringWait n
      · rw [if_pos hw, Option.some_inj] at h
        subst h
        rfl
      · rw [if_neg hw] at h
        exact ih (n + 1) (f + 1) (w + 1) exit h

/-- Claim C1: the terminal predicate used by the polling loop is exact —
a status is terminal iff it is `Finished` or `Failed`, and it is false
for each of the six other statuses (`Created`, `Loaded`, `Pending`,
`Claimed`, `Preparing`, `Processing`). -/
theorem C1_terminal_predicate_exact :
    (∀ s : JobStatus,
      statusIsTerminal s = true ↔ (s = JobStatus.Finished ∨ s = JobStatus.Failed)) ∧
    statusIsTerminal .Created = false ∧
    statusIsTerminal .Loaded = false ∧
    statusIsTerminal .Pending = false ∧
    statusIsTerminal .Claimed = false ∧
    statusIsTerminal .Preparing = false ∧
    statusIsTerminal .Processing = false := by
  refine ⟨fun s => ?_, rfl, rfl, rfl, rfl, rfl, rfl⟩
  cases s <;> decide

/-- Claim C3: `WaitForJob` never returns a non-terminal job snapshot —
any success value of the polling loop passes the terminal check — and
when every fetch yields a well-formed 200 response with a non-terminal
status, any exit of the loop carries the cancellation error and no job. -/
theorem C3_wait_terminal_or_cancelled :
    (∀ (ctx : PollCtx) (fetch : Nat → Except String GetJobResponse)
        (fuel n f w : Nat) (exit : WaitExit) (job : Job),
        waitForJobLoop ctx fetch fuel n f w = some exit →
        exit.result = .ok job → jobTerminalCheck job = true) ∧
    (∀ (ctx : PollCtx) (fetch : Nat → Except String GetJobResponse),
        (∀ m, ∃ resp body job, fetch m = .ok resp ∧ resp.statusCode = 200 ∧
          resp.json200 = some body ∧ body.data = some job ∧
          jobTerminalCheck job = false) →
        ∀ (fuel : Nat) (exit : WaitExit), WaitForJob ctx fetch fuel = some exit →
          exit.result = .error .ctxErr) :=
  ⟨fun ctx fetch => waitForJobLoop_ok_terminal ctx fetch,
   fun ctx fetch hfetch fuel exit h =>
     waitForJobLoop_nonterminal_cancel ctx fetch hfetch fuel 0 0 0 exit h⟩

/-- Witness for C3: polling a job stuck in `Pending` under a context
that is cancelled from the start exits with the cancellation error. -/
theorem C3_witness :
    WaitForJob ctxCancelAtStart (fun _ => .ok pendingResp) 3 =
      some ⟨.error .ctxErr, 0, 0⟩ ∧
    (⟨.error .ctxErr, 0, 0⟩ : WaitExit).result = .error .ctxErr :=
  ⟨rfl,
   C3_wait_terminal_or_cancelled.2 ctxCancelAtStart (fun _ => .ok pendingResp)
     (fun _ => ⟨pendingResp, ⟨some pendingJob⟩, pendingJob, rfl, rfl, rfl, rfl, rfl⟩)
     3 ⟨.error .ctxErr, 0, 0⟩ rfl⟩

/-- Claim C5: if the very first fetch yields a terminal job, `WaitForJob`
returns that snapshot after exactly one fetch with zero wait intervals
elapsed. -/
theorem C5_immediate_return_when_terminal :
    ∀ (ctx : PollCtx) (fetch : Nat → Except String GetJobResponse) (fuel : Nat)
      (resp : GetJobResponse) (body : JobEnvelope) (job : Job),
      ctx.cancelledAtStart 0 = false →
      fetch 0 = .ok resp → resp.statusCode = 200 → resp.json200 = some body →
      body.data = some job → jobTerminalCheck job = true →
      WaitForJob ctx fetch (fuel + 1) = some ⟨.ok job, 1, 0⟩ := by
  intro ctx fetch fuel resp body job hc hf hs hj hd ht
  unfold WaitForJob
  rw [waitForJobLoop, if_neg (by simp [hc]), hf]
  dsimp only
  rw [if_neg (by simp [hs]), hj]
  dsimp only
  rw [hd]
  dsimp only
  rw [if_pos ht]

/-- Witness for C5: with a never-cancelled context and a fetch stream
that immediately reports `finishedJob0`, the loop exits at once. -/
theorem C5_witness :
    WaitForJob ctxNever (fun _ => .ok finishedResp) 4 =
      some ⟨.ok finishedJob0, 1, 0⟩ :=
  C5_immediate_return_when_terminal ctxNever (fun _ => .ok finishedResp) 3
    finishedResp ⟨some finishedJob0⟩ finishedJob0 rfl rfl rfl rfl rfl rfl

/-- Claim C6: a context already cancelled when an iteration begins makes
the loop return the cancellation error with no additional fetch; a
cancellation that fires during the wait after a non-terminal fetch
aborts the wait (no wait interval is completed) and returns the
cancellation error. Both exits carry an error, hence no job. -/
theorem C6_cancellation_aborts_wait :
    (∀ (ctx : PollCtx) (fetch : Nat → Except String GetJobResponse)
        (fuel n f w : Nat),
        ctx.cancelledAtStart n = true →
        waitForJobLoop ctx fetch (fuel + 1) n f w = some ⟨.error .ctxErr, f, w⟩) ∧
    (∀ (ctx : PollCtx) (fetch : Nat → Except String GetJobResponse)
        (fuel n f w : Nat) (resp : GetJobResponse) (body : JobEnvelope) (job : Job),
        ctx.cancelledAtStart n = false →
        fetch n = .ok resp → resp.statusCode = 200 → resp.json200 = some body →
        body.data = some job → jobTerminalCheck job = false →
        ctx.cancelDuringWait n = true →
        waitForJobLoop ctx fetch (fuel + 1) n f w = some ⟨.error .ctxErr, f + 1, w⟩) := by
  constructor
  · intro ctx fetch fuel n f w hc
    rw [waitForJobLoop, if_pos hc]
  · intro ctx fetch fuel n f w resp body job hc hf hs hj hd ht hw
    rw [waitForJobLoop, if_neg (by simp [hc]), hf]
    dsimp only
    rw [if_neg (by simp [hs]), hj]
    dsimp only
    rw [hd]
    dsimp only
    rw [if_neg (by simp [ht]), if_pos hw]

/-- Witness for C6: a pre-cancelled context exits with zero fetches, and
a context cancelling during the first wait over a `Pending` job exits
with one fetch and zero completed waits. -/
theorem C6_witness :
    waitForJobLoop ctxCancelAtStart (fun _ => .ok pendingResp) 5 0 0 0 =
      some ⟨.error .ctxErr, 0, 0⟩ ∧
    waitForJobLoop ctxCancelInWait (fun _ => .ok pendingResp) 5 0 0 0 =
      some ⟨.error .ctxErr, 1, 0⟩ :=
  ⟨C6_cancellation_aborts_wait.1 ctxCancelAtStart (fun _ => .ok pendingResp) 4 0 0 0 rfl,
   C6_cancellation_aborts_wait.2 ctxCancelInWait (fun _ => .ok pendingResp) 4 0 0 0
     pendingResp ⟨some pendingJob⟩ pendingJob rfl rfl rfl rfl rfl rfl rfl⟩

/-- When the fetched job is not `Finished`, `GetJobResult` goes straight
to the logs phase with an empty output. -/
theorem GetJobResult_notFinished (env : ResultEnv) (jobID : String)
    (resp : GetJobResponse) (body : JobEnvelope) (job : Job)
    (h1 : env.jobResp = .ok resp) (h2 : resp.statusCode = 200)
    (h3 : resp.json200 = some body) (h4 : body.data = some job)
    (h5 : jobStatusIs job .Finished = false) :
    GetJobResult env jobID =
      fetchLogsPhase env jobID ⟨some job, [], []⟩ [.getJob jobID] := by
  unfold GetJobResult
  rw [h1]
  dsimp only
  rw [if_neg (by simp [h2]), h3]
  dsimp only
  rw [h4]
  dsimp only
  rw [if_neg (by simp [h5])]

/-- When the fetched job is `Finished` and the output fetch returns 200
with a readable body, `GetJobResult` enters the logs phase carrying the
output bytes. -/
theorem GetJobResult_finished_output (env : ResultEnv) (jobID : String)
    (resp : GetJobResponse) (body : JobEnvelope) (job : Job)
    (oresp : RawResponse) (bs : List Nat)
    (h1 : env.jobResp = .ok resp) (h2 : resp.statusCode = 200)
    (h3 : resp.json200 = some body) (h4 : body.data = some job)
    (h5 : jobStatusIs job .Finished = true)
    (h6 : env.outputResp = .ok oresp) (h7 : oresp.statusCode = 200)
    (h8 : oresp.body = .ok bs) :
    GetJobResult env jobID =
      fetchLogsPhase env jobID ⟨some job, bs, []⟩
        [.getJob jobID, .getJobOutput jobID] := by
  unfold GetJobResult
  rw [h1]
  dsimp only
  rw [if_neg (by simp [h2]), h3]
  dsimp only
  rw [h4]
  dsimp only
  rw [if_pos h5, h6]
  dsimp only
  rw [if_pos h7, h8]

/-- When the fetched job is `Finished` but the output fetch returns a
non-200 status, `GetJobResult` enters the logs phase with an empty
output and no error. -/
theorem GetJobResult_finished_output_non200 (env : ResultEnv) (jobID : String)
    (resp : GetJobResponse) (body : JobEnvelope) (job : Job) (oresp : RawResponse)
    (h1 : env.jobResp = .ok resp) (h2 : resp.statusCode = 200)
    (h3 : resp.json200 = some body) (h4 : body.data = some job)
    (h5 : jobStatusIs job .Finished = true)
    (h6 : env.outputResp = .ok oresp) (h7 : oresp.statusCode ≠ 200) :
    GetJobResult env jobID =
      fetchLogsPhase env jobID ⟨some job, [], []⟩
        [.getJob jobID, .getJobOutput jobID] := by
  unfold GetJobResult
  rw [h1]
  dsimp only
  rw [if_neg (by simp [h2]), h3]
  dsimp only
  rw [h4]
  dsimp only
  rw [if_pos h5, h6]
  dsimp only
  rw [if_neg h7]

/-- Claim C2 (amended): once the initial job fetch succeeds with a
well-formed payload, `GetJobResult` returns a non-nil `JobResult` and no
error provided that, when the job is `Finished`, the output transport
call succeeds and — if it returns 200 — its body is readable; a non-200
output status leaves the output empty without failing the call; and any
failure of the logs fetch leaves the logs empty without failing the
call. (The unamended claim is refuted by `C2_counterexample`: an output
transport error fails the whole call.) -/
theorem C2_result_assembly_best_effort :
    ∀ (env : ResultEnv) (jobID : String) (resp : GetJobResponse)
      (body : JobEnvelope) (job : Job),
      env.jobResp = .ok resp → resp.statusCode = 200 →
      resp.json200 = some body → body.data = some job →
      ((jobStatusIs job .Finished = true →
          ∃ oresp, env.outputResp = .ok oresp ∧
            (oresp.statusCode = 200 → ∃ bs, oresp.body = .ok bs)) →
        returnsOkResult (GetJobResult env jobID).1 = true ∧
        returnedJob (GetJobResult env jobID).1 = some (some job) ∧
        (logsFetchFailed env → returnedLogs (GetJobResult env jobID).1 = some [])) ∧
      (∀ oresp : RawResponse, jobStatusIs job .Finished = true →
        env.outputResp = .ok oresp → oresp.statusCode ≠ 200 →
        returnsOkResult (GetJobResult env jobID).1 = true ∧
        returnedOutput (GetJobResult env jobID).1 = some []) := by
  intro env jobID resp body job h1 h2 h3 h4
  constructor
  · intro houtput
    by_cases hfin : jobStatusIs job .Finished = true
    · obtain ⟨oresp, ho, hob⟩ := houtput hfin
      by_cases hoc : oresp.statusCode = 200
      · obtain ⟨bs, hbs⟩ := hob hoc
        rw [GetJobResult_finished_output env jobID resp body job oresp bs
          h1 h2 h3 h4 hfin ho hoc hbs]
        obtain ⟨r, heq, hjob, hout, hlog⟩ := fetchLogsPhase_shape env jobID
          ⟨some job, bs, []⟩ [.getJob jobID, .getJobOutput jobID]
        rw [heq]
        refine ⟨rfl, by simp [returnedJob, hjob], fun hfail => by simp [returnedLogs, hlog hfail]⟩
      · rw [GetJobResult_finished_output_non200 env jobID resp body job oresp
          h1 h2 h3 h4 hfin ho hoc]
        obtain ⟨r, heq, hjob, hout, hlog⟩ := fetchLogsPhase_shape env jobID
          ⟨some job, [], []⟩ [.getJob jobID, .getJobOutput jobID]
        rw [heq]
        refine ⟨rfl, by simp [returnedJob, hjob], fun hfail => by simp [returnedLogs, hlog hfail]⟩
    · rw [GetJobResult_notFinished env jobID resp body job h1 h2 h3 h4
        (by simpa using hfin)]
      obtain ⟨r, heq, hjob, hout, hlog⟩ := fetchLogsPhase_shape env jobID
        ⟨some job, [], []⟩ [.getJob jobID]
      rw [heq]
      refine ⟨rfl, by simp [returnedJob, hjob], fun hfail => by simp [returnedLogs, hlog hfail]⟩
  · intro oresp hfin ho hoc
    rw [GetJobResult_finished_output_non200 env jobID resp body job oresp
      h1 h2 h3 h4 hfin ho hoc]
    obtain ⟨r, heq, hjob, hout, hlog⟩ := fetchLogsPhase_shape env jobID
      ⟨some job, [], []⟩ [.getJob jobID, .getJobOutput jobID]
    rw [heq]
    exact ⟨rfl, by simp [returnedOutput, hout]⟩

/-- Counterexample to C2 as stated: with a `Finished` job whose output
fetch fails at the transport level, `GetJobResult` fails the whole call
(nil result, non-nil error) instead of returning a result with empty
output. -/
theorem C2_counterexample :
    (GetJobResult resultEnvOutputDown "job-1").1 =
      .ret none (some (.getOutputTransport "connection reset")) := rfl

/-- Witness for C2: a `Finished` job whose output fetch succeeds and
whose logs fetch returns 404 yields a non-nil result, the fetched job,
and empty logs. -/
theorem C2_witness :
    returnsOkResult (GetJobResult resultEnvGood "job-1").1 = true ∧
    returnedJob (GetJobResult resultEnvGood "job-1").1 = some (some finishedJob0) ∧
    returnedLogs (GetJobResult resultEnvGood "job-1").1 = some [] :=
  have h := (C2_result_assembly_best_effort resultEnvGood "job-1" finishedResp
      ⟨some finishedJob0⟩ finishedJob0 rfl rfl rfl rfl).1
    (fun _ => ⟨⟨200, .ok [53]⟩, rfl, fun _ => ⟨[53], rfl⟩⟩)
  ⟨h.1, h.2.1, h.2.2 (Or.inr (Or.inl ⟨⟨404, .ok []⟩, rfl, by decide⟩))⟩

/-- Claim C8: when the file cannot be opened,
`CreateAndSubmitJobFromFile` returns the wrapped underlying I/O error
and performs zero transport calls. -/
theorem C8_open_failure_before_any_call :
    ∀ (env : CreateEnv) (jobType e : String),
      CreateAndSubmitJobFromFile env jobType (.error e) =
        (.ret none (some (.openFileFailed e)), []) :=
  fun _ _ _ => rfl

/-- Claim C9: a job snapshot with an absent status field is treated as
non-terminal and non-failed everywhere: the terminal check is false on
it, the polling loop never returns such a job as its success value,
`GetJobResult` skips the output fetch for it (returning a result with
empty output and no error), and the remote-failure guard of
`Process` / `ProcessFile` is false on it. -/
theorem C9_nil_status_nonterminal :
    (∀ job : Job, job.status = none → jobTerminalCheck job = false) ∧
    (∀ (ctx : PollCtx) (fetch : Nat → Except String GetJobResponse)
        (fuel n f w : Nat) (exit : WaitExit) (job : Job),
        waitForJobLoop ctx fetch fuel n f w = some exit →
        exit.result = .ok job → job.status ≠ none) ∧
    (∀ (env : ResultEnv) (jobID : String) (resp : GetJobResponse)
        (body : JobEnvelope) (job : Job),
        env.jobResp = .ok resp → resp.statusCode = 200 →
        resp.json200 = some body → body.data = some job → job.status = none →
        ApiCall.getJobOutput jobID ∉ (GetJobResult env jobID).2 ∧
        returnsOkResult (GetJobResult env jobID).1 = true ∧
        returnedOutput (GetJobResult env jobID).1 = some []) ∧
    (∀ job : Job, job.status = none → jobFailedCheck job = false) := by
  refine ⟨?_, ?_, ?_, ?_⟩
  · intro job h
    simp [jobTerminalCheck, h]
  · intro ctx fetch fuel n f w exit job h hr hstat
    have ht := waitForJobLoop_ok_terminal ctx fetch fuel n f w exit job h hr
    simp [jobTerminalCheck, hstat] at ht
  · intro env jobID resp body job h1 h2 h3 h4 hstat
    rw [GetJobResult_notFinished env jobID resp body job h1 h2 h3 h4
      (by simp [jobStatusIs, hstat])]
    obtain ⟨r, heq, hjob, hout, hlog⟩ := fetchLogsPhase_shape env jobID
      ⟨some job, [], []⟩ [.getJob jobID]
    rw [heq]
    refine ⟨by simp, rfl, by simp [returnedOutput, hout]⟩
  · intro job h
    simp [jobFailedCheck, jobStatusIs, h]

/-- Witness for C9: the fixture job with no status field is
non-terminal, non-failed, and its result assembly performs no output
fetch while still succeeding with empty output. -/
theorem C9_witness :
    jobTerminalCheck jobNoStatus = false ∧
    (ApiCall.getJobOutput "job-1" ∉ (GetJobResult resultEnvNoStatus "job-1").2 ∧
     returnsOkResult (GetJobResult resultEnvNoStatus "job-1").1 = true ∧
     returnedOutput (GetJobResult resultEnvNoStatus "job-1").1 = some []) ∧
    jobFailedCheck jobNoStatus = false :=
  ⟨C9_nil_status_nonterminal.1 jobNoStatus rfl,
   C9_nil_status_nonterminal.2.2.1 resultEnvNoStatus "job-1"
     ⟨200, some ⟨some jobNoStatus⟩⟩ ⟨some jobNoStatus⟩ jobNoStatus rfl rfl rfl rfl rfl,
   C9_nil_status_nonterminal.2.2.2 jobNoStatus rfl⟩

/-- Claim C4 (amended): when the awaited job is in the `Failed` state
and the best-effort result assembly returns a non-nil result, `Process`
and `ProcessFile` return that result together with a non-nil error that
embeds the remote error message when present on the snapshot and is the
generic failure indicator otherwise. (The unamended claim — a non-nil
result unconditionally, and message embedding whenever the snapshot has
one — is refuted by `C4_counterexample`, where the assembly's job fetch
fails and the call returns a nil result with the generic error despite
a present remote message.) -/
theorem C4_failed_job_dual_return :
    ∀ (env : ProcessEnv) (jobType : String) (data : Except String (List Nat))
      (fuel : Nat) (job : Job) (jobId : String) (callsC : List ApiCall)
      (exit : WaitExit) (finJob : Job) (r : JobResult) (e2 : Option ClientError)
      (callsR : List ApiCall),
      CreateAndSubmitJob env.createEnv jobType data = (.ret (some job) none, callsC) →
      job.id = some jobId →
      WaitForJob env.pollCtx env.fetch fuel = some exit →
      exit.result = .ok finJob →
      jobFailedCheck finJob = true →
      GetJobResult env.resultEnv jobId = (.ret (some r) e2, callsR) →
      (Process env jobType data fuel).1 =
        .ret (some r) (some (match finJob.errorMessage with
          | some msg => .jobFailedWithMessage msg
          | none => .jobFailed)) ∧
      (∀ bs : List Nat, data = .ok bs →
        (ProcessFile env jobType data fuel).1 =
          .ret (some r) (some (match finJob.errorMessage with
            | some msg => .jobFailedWithMessage msg
            | none => .jobFailed))) := by
  intro env jobType data fuel job jobId callsC exit finJob r e2 callsR
    hcreate hid hwait hexit hfailed hres
  have hmain : (Process env jobType data fuel).1 =
      .ret (some r) (some (match finJob.errorMessage with
        | some msg => .jobFailedWithMessage msg
        | none => .jobFailed)) := by
    unfold Process
    rw [hcreate]
    dsimp only
    rw [hid]
    dsimp only
    rw [hwait]
    dsimp only
    rw [hexit]
    dsimp only
    rw [if_pos hfailed, hres]
    dsimp only
    rcases hmsg : finJob.errorMessage with _ | msg <;> dsimp only
  refine ⟨hmain, fun bs hbs => ?_⟩
  rw [hbs] at hmain ⊢
  unfold ProcessFile
  dsimp only
  exact hmain

/-- Counterexample to C4 as stated: the awaited job is `Failed` and
carries a remote error message, yet `Process` returns a nil result with
the generic `job failed` error, because the result assembly's job fetch
failed at the transport level. -/
theorem C4_counterexample :
    jobFailedCheck failedJobMsg = true ∧
    failedJobMsg.errorMessage = some "boom" ∧
    (Process processEnvAssemblyDown "pandoc_md" (.ok []) 3).1 =
      .ret none (some .jobFailed) :=
  ⟨rfl, rfl, rfl⟩

/-- Witness for C4: with the result assembly succeeding, both `Process`
and `ProcessFile` return the assembled result together with the error
embedding the remote message. -/
theorem C4_witness :
    (Process processEnvFailedGood "pandoc_md" (.ok []) 3).1 =
      .ret (some ⟨some failedJobMsg, [], [108]⟩) (some (.jobFailedWithMessage "boom")) ∧
    (ProcessFile processEnvFailedGood "pandoc_md" (.ok []) 3).1 =
      .ret (some ⟨some failedJobMsg, [], [108]⟩) (some (.jobFailedWithMessage "boom")) :=
  have h := C4_failed_job_dual_return processEnvFailedGood "pandoc_md" (.ok []) 3
    createdJob0 "job-1"
    [.createJob "pandoc_md", .uploadJobData "job-1" "tok", .submitJob "job-1"]
    ⟨.ok failedJobMsg, 1, 0⟩ failedJobMsg ⟨some failedJobMsg, [], [108]⟩ none
    [.getJob "job-1", .getJobLogs "job-1"] rfl rfl rfl rfl rfl rfl
  ⟨h.1, h.2 [] rfl⟩

/-- Claim C7: on success `CreateAndSubmitJob` returns exactly the
creation-step snapshot (whatever post-submit snapshot the ignored submit
body carries), which under the create endpoint's contract has a
non-empty id and status `Created`; a non-201 create status yields the
creation-step error, a non-200 upload status the upload-step error, and
a non-200 submit status the submission-step error. -/
theorem C7_create_submit_contract :
    ∀ (env : CreateEnv) (jobType : String) (data : Except String (List Nat))
      (resp : CreateJobResponse) (body : JobEnvelope) (job : Job)
      (jobId token : String) (bs : List Nat)
      (uresp : UploadResponse) (sresp : SubmitResponse),
      env.createResp = .ok resp → env.uploadResp = .ok uresp →
      env.submitResp = .ok sresp → data = .ok bs →
      ((resp.statusCode = 201 → resp.json201 = some body → body.data = some job →
          job.id = some jobId → jobId ≠ "" → job.status = some .Created →
          job.uploadToken = some token →
          uresp.statusCode = 200 → sresp.statusCode = 200 →
          (CreateAndSubmitJob env jobType data).1 = .ret (some job) none ∧
          job.id = some jobId ∧ jobId ≠ "" ∧ job.status = some .Created) ∧
       (resp.statusCode ≠ 201 →
          (CreateAndSubmitJob env jobType data).1 =
            .ret none (some (.createJobStatus resp.statusCode))) ∧
       (resp.statusCode = 201 → resp.json201 = some body → body.data = some job →
          job.uploadToken = some token → job.id = some jobId →
          uresp.statusCode ≠ 200 →
          (CreateAndSubmitJob env jobType data).1 =
            .ret none (some (.uploadStatus uresp.statusCode))) ∧
       (resp.statusCode = 201 → resp.json201 = some body → body.data = some job →
          job.uploadToken = some token → job.id = some jobId →
          uresp.statusCode = 200 → sresp.statusCode ≠ 200 →
          (CreateAndSubmitJob env jobType data).1 =
            .ret none (some (.submitStatus sresp.statusCode)))) := by
  intro env jobType data resp body job jobId token bs uresp sresp hcr hup hsm hdt
  refine ⟨?_, ?_, ?_, ?_⟩
  · intro h201 hjson hdata hid hne hstat htok hu hs
    unfold CreateAndSubmitJob
    rw [hcr]
    dsimp only
    rw [if_neg (by simp [h201]), hjson]
    dsimp only
    rw [hdata]
    dsimp only
    rw [htok]
    dsimp only
    rw [hdt]
    dsimp only
    rw [hid]
    dsimp only
    rw [hup]
    dsimp only
    rw [if_neg (by simp [hu]), hsm]
    dsimp only
    rw [if_neg (by simp [hs])]
    exact ⟨rfl, rfl, hne, hstat⟩
  · intro h201
    unfold CreateAndSubmitJob
    rw [hcr]
    dsimp only
    rw [if_pos h201]
  · intro h201 hjson hdata htok hid hu
    unfold CreateAndSubmitJob
    rw [hcr]
    dsimp only
    rw [if_neg (by simp [h201]), hjson]
    dsimp only
    rw [hdata]
    dsimp only
    rw [htok]
    dsimp only
    rw [hdt]
    dsimp only
    rw [hid]
    dsimp only
    rw [hup]
    dsimp only
    rw [if_pos hu]
  · intro h201 hjson hdata htok hid hu hs
    unfold CreateAndSubmitJob
    rw [hcr]
    dsimp only
    rw [if_neg (by simp [h201]), hjson]
    dsimp only
    rw [hdata]
    dsimp only
    rw [htok]
    dsimp only
    rw [hdt]
    dsimp only
    rw [hid]
    dsimp only
    rw [hup]
    dsimp only
    rw [if_neg (by simp [hu]), hsm]
    dsimp only
    rw [if_pos hs]

/-- Witness for C7: the happy-path fixture, whose submit body carries a
different post-submit snapshot, still yields the creation-step job. -/
theorem C7_witness :
    (CreateAndSubmitJob createEnvGood "pandoc_md" (.ok [104, 105])).1 =
      .ret (some createdJob0) none ∧
    createdJob0.id = some "job-1" ∧ ("job-1" : String) ≠ "" ∧
    createdJob0.status = some .Created :=
  (C7_create_submit_contract createEnvGood "pandoc_md" (.ok [104, 105])
      ⟨201, some ⟨some createdJob0⟩⟩ ⟨some createdJob0⟩ createdJob0 "job-1" "tok"
      [104, 105] ⟨200⟩ ⟨200, some ⟨some pendingJob⟩⟩ rfl rfl rfl rfl).1
    rfl rfl rfl rfl (by decide) rfl rfl rfl rfl

/-- Claim C10: a success-created payload without an upload token makes
`CreateAndSubmitJob` fail with the no-upload-token error before any
upload attempt (the trace holds only the create call); the job id is
dereferenced unchecked, so a tokened payload without an id crashes with
a nil-pointer dereference; and a present id rules the crash out. -/
theorem C10_token_guarded_id_unchecked :
    ∀ (env : CreateEnv) (jobType : String) (data : Except String (List Nat))
      (resp : CreateJobResponse) (body : JobEnvelope) (job : Job),
      env.createResp = .ok resp → resp.statusCode = 201 →
      resp.json201 = some body → body.data = some job →
      ((job.uploadToken = none →
          CreateAndSubmitJob env jobType data =
            (.ret none (some .noUploadToken), [.createJob jobType])) ∧
       (∀ (token : String) (bs : List Nat),
          job.uploadToken = some token → data = .ok bs → job.id = none →
          CreateAndSubmitJob env jobType data = (.crash, [.createJob jobType])) ∧
       (job.id ≠ none → (CreateAndSubmitJob env jobType data).1 ≠ .crash)) := by
  intro env jobType data resp body job hcr h201 hjson hdata
  refine ⟨?_, ?_, ?_⟩
  · intro htok
    unfold CreateAndSubmitJob
    rw [hcr]
    dsimp only
    rw [if_neg (by simp [h201]), hjson]
    dsimp only
    rw [hdata]
    dsimp only
    rw [htok]
  · intro token bs htok hdt hid
    unfold CreateAndSubmitJob
    rw [hcr]
    dsimp only
    rw [if_neg (by simp [h201]), hjson]
    dsimp only
    rw [hdata]
    dsimp only
    rw [htok]
    dsimp only
    rw [hdt]
    dsimp only
    rw [hid]
  · intro hidne
    unfold CreateAndSubmitJob
    rw [hcr]
    dsimp only
    rw [if_neg (by simp [h201]), hjson]
    dsimp only
    rw [hdata]
    dsimp only
    rcases htok : job.uploadToken with _ | token
    · dsimp only
      exact fun hcon => GoResult.noConfusion hcon
    · dsimp only
      rcases hdt : data with e | bs
      · dsimp only
        exact fun hcon => GoResult.noConfusion hcon
      · dsimp only
        rcases hid : job.id with _ | jobId
        · exact absurd hid hidne
        · dsimp only
          rcases hu : env.uploadResp with e | uresp
          · dsimp only
            exact fun hcon => GoResult.noConfusion hcon
          · dsimp only
            by_cases hus : uresp.statusCode ≠ 200
            · rw [if_pos hus]
              exact fun hcon => GoResult.noConfusion hcon
            · rw [if_neg hus]
              rcases hsm : env.submitResp with e | sresp
              · dsimp only
                exact fun hcon => GoResult.noConfusion hcon
              · dsimp only
                by_cases hss : sresp.statusCode ≠ 200
                · rw [if_pos hss]
                  exact fun hcon => GoResult.noConfusion hcon
                · rw [if_neg hss]
                  exact fun hcon => GoResult.noConfusion hcon

/-- Witness for C10: the token-less fixture fails with the
no-upload-token error after only the create call, the id-less fixture
crashes, and the happy-path fixture does not crash. -/
theorem C10_witness :
    CreateAndSubmitJob createEnvNoToken "pandoc_md" (.ok []) =
      (.ret none (some .noUploadToken), [.createJob "pandoc_md"]) ∧
    CreateAndSubmitJob createEnvNoId "pandoc_md" (.ok []) =
      (.crash, [.createJob "pandoc_md"]) ∧
    (CreateAndSubmitJob createEnvGood "pandoc_md" (.ok [])).1 ≠ .crash :=
  have h1 := C10_token_guarded_id_unchecked createEnvNoToken "pandoc_md" (.ok [])
    ⟨201, some ⟨some { createdJob0 with uploadToken := none }⟩⟩
    ⟨some { createdJob0 with uploadToken := none }⟩
    { createdJob0 with uploadToken := none } rfl rfl rfl rfl
  have h2 := C10_token_guarded_id_unchecked createEnvNoId "pandoc_md" (.ok [])
    ⟨201, some ⟨some { createdJob0 with id := none }⟩⟩
    ⟨some { createdJob0 with id := none }⟩
    { createdJob0 with id := none } rfl rfl rfl rfl
  have h3 := C10_token_guarded_id_unchecked createEnvGood "pandoc_md" (.ok [])
    ⟨201, some ⟨some createdJob0⟩⟩ ⟨some createdJob0⟩ createdJob0 rfl rfl rfl rfl
  ⟨h1.1 rfl, h2.2.1 "tok" [] rfl rfl rfl, h3.2.2 (by simp [createdJob0])⟩

end Bsubio
